import Mathlib

/-!
# Verification of the mcp-vscode-connector secure debug-control gateway

Shallow embedding of the repository's TypeScript sources:

* `src/securityUtils.ts`   — the `SecurityUtils` validators (file paths, line and
  column numbers, breakpoint conditions, log messages, configuration names,
  safe errors).
* `src/debugSessionManager.ts` — the `DebugSessionManager` operations
  (`setBreakpoint`, `removeBreakpoint`, `getAllBreakpoints`, `getVariables`,
  `startDebugging`, `generateBreakpointId`).
* `debugConsentManager` (source provided without a file name) — the
  `DebugConsentManager` consent state machine.

JavaScript strings are modelled by `String` / `List Char` (`string.length` is
the code-unit count, modelled as the character count — identical for all the
inputs appearing here), JavaScript numbers by `ℚ` (`Number.isInteger n`
becomes `n.den = 1`).  Node's `path.normalize` / `path.join` /
`path.isAbsolute` are modelled in their posix variants, following the
algorithm of Node's `lib/path.js` (`normalizeString` dot-segment resolution).
Host effects (workspace folders, the filesystem-existence check, the consent
prompt, debug-adapter request outcomes) are passed in as explicit environment
records, and the collection `vscode.debug.breakpoints` is passed as explicit
state, so that every operation is a pure function from (environment, state,
arguments) to (result, new state).
-/

/-! ## JavaScript string primitives -/

/-- `hay` starts with `pre` (character lists). -/
def startsWithList : List Char → List Char → Bool
  | _, [] => true
  | [], _ :: _ => false
  | a :: as, b :: bs => a = b && startsWithList as bs

/-- `needle` occurs somewhere in `hay`: JavaScript `hay.includes(needle)`. -/
def containsList (needle : List Char) : List Char → Bool
  | [] => startsWithList [] needle
  | c :: rest => startsWithList (c :: rest) needle || containsList needle rest

/-- JavaScript `s.includes(sub)`. -/
def jsIncludes (s sub : String) : Bool :=
  containsList sub.data s.data

/-- JavaScript `s.length` (code units; character count in this model). -/
def jsLength (s : String) : Nat :=
  s.data.length

/-- The ECMAScript WhiteSpace / LineTerminator set used by `String.prototype.trim`. -/
def jsWhitespaceChar (c : Char) : Bool :=
  c ∈ ['\t', '\n', '\x0b', '\x0c', '\r', ' ', '\u00A0', '\u1680',
       '\u2000', '\u2001', '\u2002', '\u2003', '\u2004', '\u2005', '\u2006',
       '\u2007', '\u2008', '\u2009', '\u200A', '\u2028', '\u2029', '\u202F',
       '\u205F', '\u3000', '\uFEFF']

/-- Drop the elements satisfying `p` from both ends of a list
(JavaScript `trim` = `trimStart` then `trimEnd`). -/
def trimBothList (p : α → Bool) (l : List α) : List α :=
  ((l.dropWhile p).reverse.dropWhile p).reverse

/-- JavaScript `s.trim()`. -/
def jsTrim (s : String) : String :=
  String.mk (trimBothList jsWhitespaceChar s.data)

/-- JavaScript number rendering `${n}`, faithful for integral values
(the only values interpolated by the sources after validation). -/
def jsNumberToString (q : ℚ) : String :=
  if q.den = 1 then toString q.num else toString q

/-! ## Node `path` (posix) -/

/-- Split a character list at every `'/'` (like `String.prototype.split('/')`).
`splitSlash "a/b"` is `["a", "b"]`, `splitSlash ""` is `[""]`. -/
def splitSlash : List Char → List (List Char)
  | [] => [[]]
  | c :: rest =>
    let r := splitSlash rest
    if c = '/' then [] :: r
    else
      match r with
      | [] => [[c]]
      | seg :: segs => (c :: seg) :: segs

/-- One step of Node's `normalizeString` dot-segment resolution, processing
one path segment against the stack of kept segments (most recent first):
empty and `.` segments are dropped; `..` pops the previous segment, except
that leading `..` segments are kept when `allowAboveRoot` (relative paths)
and dropped at the root otherwise (absolute paths). -/
def stepSeg (allowAboveRoot : Bool) (acc : List (List Char)) (seg : List Char) :
    List (List Char) :=
  if seg = [] ∨ seg = ['.'] then acc
  else if seg = ['.', '.'] then
    match acc with
    | [] => if allowAboveRoot then [['.', '.']] else []
    | a :: rest =>
      if a = ['.', '.'] then
        (if allowAboveRoot then ['.', '.'] :: a :: rest else a :: rest)
      else rest
  else seg :: acc

/-- Node `normalizeString(path, allowAboveRoot, '/')`: resolve `.` and `..`
segments and rejoin with `'/'`. -/
def normalizeString (l : List Char) (allowAboveRoot : Bool) : List Char :=
  List.intercalate ['/'] (((splitSlash l).foldl (stepSeg allowAboveRoot) []).reverse)

/-- Node `path.posix.normalize`. -/
def normalizeChars (l : List Char) : List Char :=
  if l = [] then ['.']
  else
    let isAbs := l.head? = some '/'
    let trail := l.getLast? = some '/'
    let body := normalizeString l (!isAbs)
    if body = [] then
      if isAbs then ['/']
      else if trail then ['.', '/'] else ['.']
    else
      let body' := if trail then body ++ ['/'] else body
      if isAbs then '/' :: body' else body'

/-- Node `path.posix.normalize` on `String`. -/
def posixNormalize (p : String) : String :=
  String.mk (normalizeChars p.data)

/-- Node `path.posix.isAbsolute`. -/
def isAbsolutePosix (p : String) : Bool :=
  p.data.head? = some '/'

/-- Node `path.posix.join(a, b)`: concatenate the non-empty parts with `'/'`
and normalize (`'.'` when both parts are empty). -/
def posixJoin (a b : String) : String :=
  if a = "" && b = "" then "."
  else if a = "" then posixNormalize b
  else if b = "" then posixNormalize a
  else posixNormalize (a ++ "/" ++ b)

/-! ## `SecurityUtils` (src/securityUtils.ts) -/

/-- The host's workspace-folder list as seen by `SecurityUtils.validateFilePath`:
`vscode.workspace.workspaceFolders?.[0]?.uri.fsPath`. -/
structure WorkspaceEnv where
  workspaceRoot : Option String
deriving DecidableEq

/-- Result record of `SecurityUtils.validateFilePath`. -/
structure PathValidation where
  isValid : Bool
  sanitizedPath : String
  errMsg : Option String := none
deriving DecidableEq

/-- `SecurityUtils.validateFilePath` (src/securityUtils.ts:14-61): reject empty
input, over-long input, `..`/`~` in the `path.normalize`d form, and NUL/CR/LF
in the raw input; resolve accepted relative paths against the primary
workspace root when one exists. -/
def validateFilePath (env : WorkspaceEnv) (filePath : String) : PathValidation :=
  if filePath = "" then
    { isValid := false, sanitizedPath := "", errMsg := some "File path must be a non-empty string" }
  else if 4096 < jsLength filePath then
    { isValid := false, sanitizedPath := "", errMsg := some "File path too long" }
  else
    let normalizedPath := posixNormalize filePath
    if jsIncludes normalizedPath ".." || jsIncludes normalizedPath "~" then
      { isValid := false, sanitizedPath := "", errMsg := some "Path traversal detected" }
    else if jsIncludes filePath "\x00" || jsIncludes filePath "\r" || jsIncludes filePath "\n" then
      { isValid := false, sanitizedPath := "", errMsg := some "Invalid characters in path" }
    else if isAbsolutePosix normalizedPath = false then
      match env.workspaceRoot with
      | some root => { isValid := true, sanitizedPath := posixJoin root normalizedPath }
      | none => { isValid := true, sanitizedPath := normalizedPath }
    else
      { isValid := true, sanitizedPath := normalizedPath }

/-- Result record of the numeric validators. -/
structure NumValidation where
  isValid : Bool
  errMsg : Option String := none
deriving DecidableEq

/-- JavaScript `Number.isInteger` on the rational model of JS numbers. -/
def jsIsInteger (n : ℚ) : Bool :=
  n.den = 1

/-- `SecurityUtils.validateLineNumber` (src/securityUtils.ts:66-82). -/
def validateLineNumber (n : ℚ) : NumValidation :=
  if !jsIsInteger n || n < 1 then
    { isValid := false, errMsg := some "Line number must be a positive integer" }
  else if 1000000 < n then
    { isValid := false, errMsg := some "Line number too large" }
  else
    { isValid := true }

/-- `SecurityUtils.validateColumnNumber` (src/securityUtils.ts:87-103). -/
def validateColumnNumber (n : ℚ) : NumValidation :=
  if !jsIsInteger n || n < 1 then
    { isValid := false, errMsg := some "Column number must be a positive integer" }
  else if 1000 < n then
    { isValid := false, errMsg := some "Column number too large" }
  else
    { isValid := true }

/-- The shared sanitization of breakpoint conditions and log messages:
strip CR/LF, strip `<`/`>`, then `trim()`. -/
def sanitizeText (s : String) : String :=
  String.mk (trimBothList jsWhitespaceChar
    ((s.data.filter (fun c => !(c = '\r' || c = '\n'))).filter
      (fun c => !(c = '<' || c = '>'))))

/-- Result record of `SecurityUtils.validateBreakpointCondition`. -/
structure CondValidation where
  isValid : Bool
  sanitizedCondition : String
  errMsg : Option String := none
deriving DecidableEq

/-- `SecurityUtils.validateBreakpointCondition` (src/securityUtils.ts:108-128):
falsy input is valid-and-empty, length > 1000 is rejected, otherwise the
sanitized condition is returned. -/
def validateBreakpointCondition (condition : String) : CondValidation :=
  if condition = "" then
    { isValid := true, sanitizedCondition := "" }
  else if 1000 < jsLength condition then
    { isValid := false, sanitizedCondition := "", errMsg := some "Breakpoint condition too long" }
  else
    { isValid := true, sanitizedCondition := sanitizeText condition }

/-- Result record of `SecurityUtils.validateLogMessage`. -/
structure LogValidation where
  isValid : Bool
  sanitizedMessage : String
  errMsg : Option String := none
deriving DecidableEq

/-- `SecurityUtils.validateLogMessage` (src/securityUtils.ts:133-153):
same shape as the condition validator with a 500-character cap. -/
def validateLogMessage (logMessage : String) : LogValidation :=
  if logMessage = "" then
    { isValid := true, sanitizedMessage := "" }
  else if 500 < jsLength logMessage then
    { isValid := false, sanitizedMessage := "", errMsg := some "Log message too long" }
  else
    { isValid := true, sanitizedMessage := sanitizeText logMessage }

/-- `SecurityUtils.validateConfigurationName` (src/securityUtils.ts:158-182). -/
def validateConfigurationName (configName : String) : NumValidation :=
  if configName = "" then
    { isValid := false, errMsg := some "Configuration name must be a non-empty string" }
  else if 100 < jsLength configName then
    { isValid := false, errMsg := some "Configuration name too long" }
  else if configName.data.any (fun c => c ∈ ['\x00', '\r', '\n', '<', '>']) then
    { isValid := false, errMsg := some "Invalid characters in configuration name" }
  else
    { isValid := true }

/-- `SecurityUtils.createSafeError` (src/securityUtils.ts:187-195): the detailed
error goes only to the internal security log (not modelled); the caller-visible
message names nothing but the operation. -/
def createSafeError (operation : String) : String :=
  "Operation \"" ++ operation ++ "\" failed due to invalid input or security restrictions"

example : posixNormalize "a/../b" = "b" := by decide
example : posixNormalize "../x" = "../x" := by decide
example : posixNormalize "/.." = "/" := by decide
example : posixNormalize "a/b/" = "a/b/" := by decide
example : posixNormalize "a//b/./c" = "a/b/c" := by decide
example : (validateFilePath ⟨none⟩ "a/../b").isValid = true := by decide
example : (validateFilePath ⟨some "/ws"⟩ "src/app.ts").sanitizedPath = "/ws/src/app.ts" := by decide
example : (validateFilePath ⟨none⟩ "~/x").isValid = false := by decide
example : (validateLineNumber (⟨1, 2, by decide, by decide⟩ : ℚ)).isValid = false := by decide
example : (validateLineNumber 1000000).isValid = true := by decide
example : sanitizeText "  a<b>\r\nc " = "abc" := by decide

/-! ## `DebugConsentManager` (debugConsentManager source) -/

/-- The outcome of the modal `vscode.window.showInformationMessage` consent
prompt: one of the three buttons, or dismissal (`undefined`). -/
inductive PromptAnswer
  | approveOnce
  | approveAlways
  | deny
  | dismissed
deriving DecidableEq

/-- The host configuration read by the consent manager: the persisted
`requireDebugConsent` flag (default `true`) and the answer the interactive
prompt would produce. -/
structure ConsentEnv where
  requireDebugConsent : Bool
  promptAnswer : PromptAnswer

/-- Result of a consent decision: whether the configuration may be used, and
the (possibly updated) persisted approved-configuration list. -/
structure CanUseOutcome where
  allowed : Bool
  approvedConfigs : List String
deriving DecidableEq

/-- `DebugConsentManager.isConfigurationApproved`. -/
def isConfigurationApproved (approvedConfigs : List String) (configurationName : String) : Bool :=
  configurationName ∈ approvedConfigs

/-- `DebugConsentManager.approveConfiguration`: append the name to the
persisted list unless already present. -/
def approveConfiguration (approvedConfigs : List String) (configurationName : String) :
    List String :=
  if configurationName ∈ approvedConfigs then approvedConfigs
  else approvedConfigs ++ [configurationName]

/-- `DebugConsentManager.requestConsent`: the `switch` on the prompt result —
"Approve Always" persists and allows, "Approve Once" allows without
persisting, "Deny" and the `default` (dismissal) refuse. -/
def requestConsent (env : ConsentEnv) (approvedConfigs : List String)
    (configurationName : String) : CanUseOutcome :=
  match env.promptAnswer with
  | .approveAlways =>
    { allowed := true
      approvedConfigs := approveConfiguration approvedConfigs configurationName }
  | .approveOnce => { allowed := true, approvedConfigs := approvedConfigs }
  | .deny => { allowed := false, approvedConfigs := approvedConfigs }
  | .dismissed => { allowed := false, approvedConfigs := approvedConfigs }

/-- `DebugConsentManager.canUseConfiguration`: allow when consent is not
required, allow when already approved, otherwise request consent. -/
def canUseConfiguration (env : ConsentEnv) (approvedConfigs : List String)
    (configurationName : String) : CanUseOutcome :=
  if env.requireDebugConsent = false then
    { allowed := true, approvedConfigs := approvedConfigs }
  else if isConfigurationApproved approvedConfigs configurationName then
    { allowed := true, approvedConfigs := approvedConfigs }
  else
    requestConsent env approvedConfigs configurationName

/-! ## `DebugSessionManager` (src/debugSessionManager.ts) -/

/-- A `vscode.SourceBreakpoint` as stored in `vscode.debug.breakpoints`:
`location.uri.fsPath`, the 0-based `location.range.start` coordinates, and
the constructor arguments of `new vscode.SourceBreakpoint(location, enabled,
condition, hitCondition, logMessage)`. -/
structure SrcBreakpoint where
  file : String
  line0 : ℚ
  char0 : ℚ
  enabled : Bool
  condition : Option String
  hitCondition : Option String
  logMessage : Option String
deriving DecidableEq

/-- The `BreakpointInfo` record returned to callers (1-based coordinates). -/
structure BreakpointInfo where
  id : String
  file : String
  line : ℚ
  column : Option ℚ
  enabled : Bool
  condition : Option String
  hitCondition : Option String
  logMessage : Option String
deriving DecidableEq

/-- `DebugSessionManager.generateBreakpointId`
(src/debugSessionManager.ts:535-537): the template
`fsPath:line:character` over the 0-based stored location. -/
def generateBreakpointId (bp : SrcBreakpoint) : String :=
  bp.file ++ ":" ++ jsNumberToString bp.line0 ++ ":" ++ jsNumberToString bp.char0

/-- `DebugSessionManager.getAllBreakpoints` (src/debugSessionManager.ts:90-110):
project every source breakpoint to a `BreakpointInfo`, converting the stored
0-based coordinates to 1-based ones and deriving the id from the stored
location. -/
def getAllBreakpoints (bps : List SrcBreakpoint) : List BreakpointInfo :=
  bps.map (fun bp =>
    { id := generateBreakpointId bp
      file := bp.file
      line := bp.line0 + 1
      column := some (bp.char0 + 1)
      enabled := bp.enabled
      condition := bp.condition
      hitCondition := bp.hitCondition
      logMessage := bp.logMessage })

/-- The host environment of `DebugSessionManager.setBreakpoint` /
`removeBreakpoint`: the primary workspace root used by `validateFilePath`,
and the read-only filesystem oracle `SecurityUtils.fileExistsInWorkspace`
(true only for regular files inside a workspace folder). -/
structure DebugEnv where
  workspaceRoot : Option String
  fileExistsInWorkspace : String → Bool

/-- The column validation step of `setBreakpoint`/`removeBreakpoint`
(src/debugSessionManager.ts:136-145): only a supplied column is validated. -/
def columnCheckFails (column : Option ℚ) : Bool :=
  match column with
  | none => false
  | some c => !(validateColumnNumber c).isValid

/-- The condition validation step of `setBreakpoint`
(src/debugSessionManager.ts:147-156): guarded by the truthiness of
`options?.condition`, so an absent or empty condition is not validated. -/
def conditionCheckFails (condition : Option String) : Bool :=
  match condition with
  | none => false
  | some c => if c = "" then false else !(validateBreakpointCondition c).isValid

/-- The log-message validation step of `setBreakpoint`
(src/debugSessionManager.ts:158-167), with the same truthiness guard. -/
def logMessageCheckFails (logMessage : Option String) : Bool :=
  match logMessage with
  | none => false
  | some m => if m = "" then false else !(validateLogMessage m).isValid

/-- The `sanitizedCondition` local of `setBreakpoint`: defined only when
`options?.condition` is truthy and valid. -/
def sanitizedConditionOf (condition : Option String) : Option String :=
  match condition with
  | none => none
  | some c => if c = "" then none else some (validateBreakpointCondition c).sanitizedCondition

/-- The `sanitizedLogMessage` local of `setBreakpoint`. -/
def sanitizedLogMessageOf (logMessage : Option String) : Option String :=
  match logMessage with
  | none => none
  | some m => if m = "" then none else some (validateLogMessage m).sanitizedMessage

/-- The `character` coordinate of the `vscode.Position` built by
`setBreakpoint` (src/debugSessionManager.ts:180-183): the ternary
`validatedColumn ? Math.max(0, validatedColumn - 1) : 0` (truthiness, so an
absent column — and a zero one, unreachable after validation — maps to 0). -/
def backendChar (validatedColumn : Option ℚ) : ℚ :=
  match validatedColumn with
  | none => 0
  | some c => if c = 0 then 0 else max 0 (c - 1)

/-- Result and post-state of `DebugSessionManager.setBreakpoint`: the value
returned (or the safe error thrown) and the breakpoint collection after the
call. -/
structure SetBreakpointOutcome where
  result : Except String BreakpointInfo
  breakpoints : List SrcBreakpoint

/-- `DebugSessionManager.setBreakpoint` (src/debugSessionManager.ts:115-211):
run the validator chain (file path, line, column, condition, log message,
existence in workspace); on any failure throw the safe error without touching
`vscode.debug.breakpoints`; on success install the breakpoint at the 0-based
converted position and return its `BreakpointInfo`.  The surrounding
`try`/`catch` re-throws in both of its branches, so it does not alter the
outcome; `openTextDocument` on an existing workspace file is modelled as
succeeding. -/
def setBreakpoint (env : DebugEnv) (bps : List SrcBreakpoint) (file : String)
    (line : ℚ) (column : Option ℚ)
    (condition hitCondition logMessage : Option String) : SetBreakpointOutcome :=
  let fileValidation := validateFilePath ⟨env.workspaceRoot⟩ file
  if fileValidation.isValid = false then
    { result := .error (createSafeError "setBreakpoint"), breakpoints := bps }
  else if (validateLineNumber line).isValid = false then
    { result := .error (createSafeError "setBreakpoint"), breakpoints := bps }
  else if columnCheckFails column then
    { result := .error (createSafeError "setBreakpoint"), breakpoints := bps }
  else if conditionCheckFails condition then
    { result := .error (createSafeError "setBreakpoint"), breakpoints := bps }
  else if logMessageCheckFails logMessage then
    { result := .error (createSafeError "setBreakpoint"), breakpoints := bps }
  else if env.fileExistsInWorkspace fileValidation.sanitizedPath = false then
    { result := .error (createSafeError "setBreakpoint"), breakpoints := bps }
  else
    let bp : SrcBreakpoint :=
      { file := fileValidation.sanitizedPath
        line0 := max 0 (line - 1)
        char0 := backendChar column
        enabled := true
        condition := sanitizedConditionOf condition
        hitCondition := hitCondition
        logMessage := sanitizedLogMessageOf logMessage }
    { result := .ok
        { id := generateBreakpointId bp
          file := fileValidation.sanitizedPath
          line := line
          column := column
          enabled := true
          condition := sanitizedConditionOf condition
          hitCondition := hitCondition
          logMessage := sanitizedLogMessageOf logMessage }
      breakpoints := bps ++ [bp] }

/-- The filter predicate of `removeBreakpoint`
(src/debugSessionManager.ts:247-258): exact file and 1-based line equality,
and column equality only when `validatedColumn` is truthy
(`!validatedColumn || bpColumn === validatedColumn`). -/
def bpRemovalMatch (sanitizedPath : String) (line : ℚ) (validatedColumn : Option ℚ)
    (bp : SrcBreakpoint) : Bool :=
  bp.file = sanitizedPath && bp.line0 + 1 = line &&
    (match validatedColumn with
     | none => true
     | some c => if c = 0 then true else bp.char0 + 1 = c)

/-- Result and post-state of `DebugSessionManager.removeBreakpoint`. -/
structure RemoveBreakpointOutcome where
  result : Except String Bool
  breakpoints : List SrcBreakpoint

/-- `DebugSessionManager.removeBreakpoint` (src/debugSessionManager.ts:216-278):
validate file path, line and (when supplied) column, throwing the safe error
on failure; otherwise remove every source breakpoint matching
`bpRemovalMatch` and report whether any matched. -/
def removeBreakpoint (env : DebugEnv) (bps : List SrcBreakpoint) (file : String)
    (line : ℚ) (column : Option ℚ) : RemoveBreakpointOutcome :=
  let fileValidation := validateFilePath ⟨env.workspaceRoot⟩ file
  if fileValidation.isValid = false then
    { result := .error (createSafeError "removeBreakpoint"), breakpoints := bps }
  else if (validateLineNumber line).isValid = false then
    { result := .error (createSafeError "removeBreakpoint"), breakpoints := bps }
  else if columnCheckFails column then
    { result := .error (createSafeError "removeBreakpoint"), breakpoints := bps }
  else
    let toRemove := bps.filter (bpRemovalMatch fileValidation.sanitizedPath line column)
    if 0 < toRemove.length then
      { result := .ok true
        breakpoints :=
          bps.filter (fun bp => !bpRemovalMatch fileValidation.sanitizedPath line column bp) }
    else
      { result := .ok false, breakpoints := bps }

/-- A stack frame of the `stackTrace` debug-adapter response. -/
structure StackFrame where
  id : ℚ
  name : String
deriving DecidableEq

/-- A variable of the `variables` debug-adapter response, already projected to
the fields `getVariables` keeps. -/
structure VariableInfo where
  name : String
  value : String
  varType : Option String
  variablesReference : Option ℚ
  presentationHint : Option String
deriving DecidableEq

/-- The active debug session's adapter as seen by `getVariables`: the outcome
of `customRequest('stackTrace', \x7bthreadId: 1\x7d)` and of
`customRequest('variables', \x7bvariablesReference: frameId\x7d)` for each
reference. -/
structure SessionBackend where
  stackTraceResp : Except String (List StackFrame)
  variablesResp : ℚ → Except String (List VariableInfo)

/-- `DebugSessionManager.getVariables` (src/debugSessionManager.ts:283-320):
no active session yields `[]`; with no frame-id argument the top frame of
thread 1 is used, and an empty stack yields `[]`; every backend failure is
caught and yields `[]`. -/
def getVariables (activeSession : Option SessionBackend) (frameId : Option ℚ) :
    List VariableInfo :=
  match activeSession with
  | none => []
  | some session =>
    let resolvedFrameId : Except String (Option ℚ) :=
      match frameId with
      | some f => .ok (some f)
      | none =>
        match session.stackTraceResp with
        | .error e => .error e
        | .ok frames => .ok (frames.head?.map (fun fr => fr.id))
    match resolvedFrameId with
    | .error _ => []
    | .ok none => []
    | .ok (some f) =>
      match session.variablesResp f with
      | .error _ => []
      | .ok vars => vars

/-- The host environment of `DebugSessionManager.startDebugging`: the
workspace folder paths (`vscode.workspace.workspaceFolders`), the consent
configuration/prompt, and whether `vscode.debug.startDebugging` would
succeed for the resolved folder. -/
structure StartDebugEnv where
  workspaceFolders : List String
  consent : ConsentEnv
  backendStartSuccess : Bool

/-- Result of `DebugSessionManager.startDebugging`: the boolean outcome (or a
thrown error), the persisted approved-configuration list after the call, and
whether `vscode.debug.startDebugging` was requested at all. -/
structure StartDebuggingOutcome where
  result : Except String Bool
  approvedConfigs : List String
  backendStartRequested : Bool

/-- The `try` body of `DebugSessionManager.startDebugging`
(src/debugSessionManager.ts:417-462): validate the configuration name (throw
the safe error on failure), ask the consent manager, return `false` on
refusal without touching anything else, resolve the workspace folder
(validating an explicitly supplied one, throwing on failure), return `false`
when none resolves, and otherwise request the backend start. -/
def startDebuggingTry (env : StartDebugEnv) (approvedConfigs : List String)
    (configurationName : String) (workspaceFolder : Option String) :
    StartDebuggingOutcome :=
  if (validateConfigurationName configurationName).isValid = false then
    { result := .error (createSafeError "startDebugging")
      approvedConfigs := approvedConfigs
      backendStartRequested := false }
  else
    let canUse := canUseConfiguration env.consent approvedConfigs configurationName
    if canUse.allowed = false then
      { result := .ok false
        approvedConfigs := canUse.approvedConfigs
        backendStartRequested := false }
    else
      let folderResolution : Except String (Option String) :=
        match workspaceFolder with
        | some wf =>
          let folderValidation := validateFilePath ⟨env.workspaceFolders.head?⟩ wf
          if folderValidation.isValid = false then
            .error (createSafeError "startDebugging")
          else
            .ok (env.workspaceFolders.find? (fun f => f = folderValidation.sanitizedPath))
        | none => .ok env.workspaceFolders.head?
      match folderResolution with
      | .error e =>
        { result := .error e
          approvedConfigs := canUse.approvedConfigs
          backendStartRequested := false }
      | .ok none =>
        { result := .ok false
          approvedConfigs := canUse.approvedConfigs
          backendStartRequested := false }
      | .ok (some _) =>
        { result := .ok env.backendStartSuccess
          approvedConfigs := canUse.approvedConfigs
          backendStartRequested := true }

/-- `DebugSessionManager.startDebugging` (src/debugSessionManager.ts:416-470):
the `try` body wrapped in the `catch` that re-throws only errors whose
message contains `"SECURITY"` (which the safe error messages never do) and
converts every other thrown error to a plain `false` return. -/
def startDebugging (env : StartDebugEnv) (approvedConfigs : List String)
    (configurationName : String) (workspaceFolder : Option String) :
    StartDebuggingOutcome :=
  let tried := startDebuggingTry env approvedConfigs configurationName workspaceFolder
  match tried.result with
  | .error msg =>
    if jsIncludes msg "SECURITY" then tried
    else { tried with result := .ok false }
  | .ok _ => tried

/-! ## Helper lemmas -/

/-- A list whose head (if any) fails `p` is unchanged by `dropWhile p`. -/
theorem dropWhile_eq_self_of_head (p : α → Bool) (l : List α)
    (h : ∀ a, l.head? = some a → p a = false) : l.dropWhile p = l := by
  cases l with
  | nil => rfl
  | cons a t =>
    rw [List.dropWhile_cons, if_neg]
    simp [h a rfl]

/-- The head of `dropWhile p l` fails `p`. -/
theorem head_of_dropWhile_false (p : α → Bool) (l : List α) (a : α)
    (h : (l.dropWhile p).head? = some a) : p a = false := by
  have hm := List.head?_dropWhile_not p l
  rw [h] at hm
  exact hm

/-- `dropWhile` only removes a prefix, so the last element survives. -/
theorem getLast?_dropWhile (p : α → Bool) (l : List α) (h : l.dropWhile p ≠ []) :
    (l.dropWhile p).getLast? = l.getLast? := by
  induction l with
  | nil => simp at h
  | cons a t ih =>
    by_cases hp : p a = true
    · rw [List.dropWhile_cons, if_pos hp] at h ⊢
      have ht : t ≠ [] := by
        intro e
        rw [e] at h
        simp at h
      rw [ih h]
      cases t with
      | nil => exact absurd rfl ht
      | cons b u => rw [List.getLast?_cons_cons]
    · rw [List.dropWhile_cons, if_neg hp]

/-- Trimming is idempotent for any predicate. -/
theorem trimBothList_idem (p : α → Bool) (l : List α) :
    trimBothList p (trimBothList p l) = trimBothList p l := by
  have key : ∀ a, (trimBothList p l).head? = some a → p a = false := by
    intro a ha
    unfold trimBothList at ha
    rw [List.head?_reverse] at ha
    have hne : (l.dropWhile p).reverse.dropWhile p ≠ [] := by
      intro e
      rw [e] at ha
      simp at ha
    rw [getLast?_dropWhile p _ hne, List.getLast?_reverse] at ha
    exact head_of_dropWhile_false p l a ha
  have key2 : ∀ a, ((trimBothList p l).reverse).head? = some a → p a = false := by
    intro a ha
    unfold trimBothList at ha
    rw [List.reverse_reverse] at ha
    exact head_of_dropWhile_false p _ a ha
  have hshow : trimBothList p (trimBothList p l) =
      (((trimBothList p l).dropWhile p).reverse.dropWhile p).reverse := rfl
  rw [hshow, dropWhile_eq_self_of_head p _ key, dropWhile_eq_self_of_head p _ key2,
    List.reverse_reverse]

/-- Membership in a trimmed list implies membership in the original. -/
theorem mem_of_mem_trimBothList (p : α → Bool) (l : List α) (a : α)
    (h : a ∈ trimBothList p l) : a ∈ l := by
  unfold trimBothList at h
  rw [List.mem_reverse] at h
  have h2 := (List.dropWhile_sublist (l := (l.dropWhile p).reverse) p).subset h
  rw [List.mem_reverse] at h2
  exact (List.dropWhile_sublist p).subset h2

/-- A filter with a predicate already satisfied throughout a list fixes the
trimmed list as well. -/
theorem filter_trimBothList_eq (p q : α → Bool) (l : List α)
    (h : ∀ a ∈ l, q a = true) : (trimBothList p l).filter q = trimBothList p l :=
  List.filter_eq_self.2 fun a ha => h a (mem_of_mem_trimBothList p l a ha)

/-- Trimming does not lengthen a list. -/
theorem length_trimBothList_le (p : α → Bool) (l : List α) :
    (trimBothList p l).length ≤ l.length := by
  unfold trimBothList
  rw [List.length_reverse]
  calc ((l.dropWhile p).reverse.dropWhile p).length
      ≤ (l.dropWhile p).reverse.length := (List.dropWhile_sublist p).length_le
    _ = (l.dropWhile p).length := List.length_reverse _
    _ ≤ l.length := (List.dropWhile_sublist p).length_le

/-- The shared condition/log-message sanitizer is idempotent. -/
theorem sanitizeText_idem (s : String) : sanitizeText (sanitizeText s) = sanitizeText s := by
  unfold sanitizeText
  congr 1
  have hmem : ∀ a ∈ trimBothList jsWhitespaceChar
      ((s.data.filter (fun c => !(c = '\r' || c = '\n'))).filter
        (fun c => !(c = '<' || c = '>'))), 
      (!(a = '\r' || a = '\n')) = true ∧ (!(a = '<' || a = '>')) = true := by
    intro a ha
    have h1 := mem_of_mem_trimBothList _ _ a ha
    have h2 := List.mem_filter.1 h1
    have h3 := List.mem_filter.1 h2.1
    exact ⟨h3.2, h2.2⟩
  rw [List.filter_eq_self.2 (fun a ha => (hmem a ha).1)]
  rw [List.filter_eq_self.2 (fun a ha => (hmem a ha).2)]
  exact trimBothList_idem _ _

/-- Sanitizing never lengthens a string. -/
theorem jsLength_sanitizeText_le (s : String) : jsLength (sanitizeText s) ≤ jsLength s := by
  unfold sanitizeText jsLength
  calc (trimBothList jsWhitespaceChar _).length
      ≤ ((s.data.filter (fun c => !(c = '\r' || c = '\n'))).filter
          (fun c => !(c = '<' || c = '>'))).length := length_trimBothList_le _ _
    _ ≤ (s.data.filter (fun c => !(c = '\r' || c = '\n'))).length :=
        List.length_filter_le _ _
    _ ≤ s.data.length := List.length_filter_le _ _

/-- `path.posix.normalize` never returns the empty string. -/
theorem normalizeChars_ne_nil (l : List Char) : normalizeChars l ≠ [] := by
  intro hcontra
  unfold normalizeChars at hcontra
  by_cases h1 : l = []
  · simp [h1] at hcontra
  · rw [if_neg h1] at hcontra
    by_cases hb : normalizeString l (!decide (l.head? = some '/')) = []
    · rw [if_pos hb] at hcontra
      by_cases ha : l.head? = some '/'
      · simp [ha] at hcontra
      · by_cases ht : l.getLast? = some '/' <;> simp [ha, ht] at hcontra
    · rw [if_neg hb] at hcontra
      by_cases ha : l.head? = some '/'
      · simp [ha] at hcontra
      · by_cases ht : l.getLast? = some '/' <;> simp_all [ha, ht]

/-- `path.posix.normalize` preserves a leading slash. -/
theorem normalizeChars_head_slash (l : List Char) (h : l.head? = some '/') :
    (normalizeChars l).head? = some '/' := by
  have hne : l ≠ [] := by
    intro e
    rw [e] at h
    simp at h
  unfold normalizeChars
  rw [if_neg hne]
  simp only [h]
  by_cases hb : normalizeString l false = [] <;> simp [hb]

/-- A line number accepted by `validateLineNumber` is at least 1. -/
theorem one_le_of_validLineNumber (n : ℚ) (h : (validateLineNumber n).isValid = true) :
    1 ≤ n := by
  unfold validateLineNumber at h
  split_ifs at h with h1 h2
  by_contra hlt
  push_neg at hlt
  exact h1 (by simp [hlt])

/-- A column number accepted by `validateColumnNumber` is at least 1. -/
theorem one_le_of_validColumnNumber (n : ℚ) (h : (validateColumnNumber n).isValid = true) :
    1 ≤ n := by
  unfold validateColumnNumber at h
  split_ifs at h with h1 h2
  by_contra hlt
  push_neg at hlt
  exact h1 (by simp [hlt])

/-! ## Claim C1 -/

/-- C1 counterexample: the input `"a/../b"` contains a `..` segment, yet
`validateFilePath` accepts it — the `..`/`~` check runs on the
`path.normalize`d form, which is `"b"`. -/
theorem validateFilePath_accepts_dotdot_input :
    jsIncludes "a/../b" ".." = true ∧
    (validateFilePath ⟨none⟩ "a/../b").isValid = true := by
  exact ⟨by decide, by decide⟩

/-- C1 (amended): for every input string whose `path.normalize`d form contains
`..` or `~`, `validateFilePath` rejects, regardless of the rest of the
string's content. -/
theorem validateFilePath_rejects_normalized_traversal (env : WorkspaceEnv) (p : String)
    (h : (jsIncludes (posixNormalize p) ".." || jsIncludes (posixNormalize p) "~") = true) :
    (validateFilePath env p).isValid = false := by
  simp only [validateFilePath]
  split_ifs with h1 h2 h3 h4 h5
  all_goals rfl

/-- Witness for the amended C1 theorem at the concrete input `"../etc/passwd"`. -/
theorem validateFilePath_rejects_normalized_traversal_witness :
    (jsIncludes (posixNormalize "../etc/passwd") ".." ||
      jsIncludes (posixNormalize "../etc/passwd") "~") = true ∧
    (validateFilePath ⟨some "/ws"⟩ "../etc/passwd").isValid = false :=
  ⟨by decide, validateFilePath_rejects_normalized_traversal ⟨some "/ws"⟩ "../etc/passwd" (by decide)⟩

/-! ## Claim C6 -/

/-- C6 counterexample: with no workspace folder, `validateFilePath` accepts
the relative path `"src/app.ts"` and returns it unresolved (not absolute). -/
theorem validateFilePath_accepts_relative_without_workspace :
    (validateFilePath ⟨none⟩ "src/app.ts").isValid = true ∧
    isAbsolutePosix (validateFilePath ⟨none⟩ "src/app.ts").sanitizedPath = false := by
  exact ⟨by decide, by decide⟩

/-- C6 (amended): when a primary workspace folder exists, every accepted
relative path is resolved against it with `path.join` — an absolute result
whenever the workspace root is absolute; with no workspace folder the
relative normalized path is accepted unchanged. -/
theorem validateFilePath_relative_resolution (root : Option String) (p : String)
    (hv : (validateFilePath ⟨root⟩ p).isValid = true)
    (hrel : isAbsolutePosix (posixNormalize p) = false) :
    (∀ w, root = some w →
      (validateFilePath ⟨root⟩ p).sanitizedPath = posixJoin w (posixNormalize p) ∧
      (isAbsolutePosix w = true →
        isAbsolutePosix (validateFilePath ⟨root⟩ p).sanitizedPath = true)) ∧
    (root = none → (validateFilePath ⟨root⟩ p).sanitizedPath = posixNormalize p) := by
  have habs : ∀ w, isAbsolutePosix w = true →
      isAbsolutePosix (posixJoin w (posixNormalize p)) = true := by
    intro w hw
    have hwne : w ≠ "" := by
      intro e
      rw [e] at hw
      simp [isAbsolutePosix] at hw
    have hnne : posixNormalize p ≠ "" := by
      intro e
      have := normalizeChars_ne_nil p.data
      exact this (congrArg String.data e)
    unfold posixJoin
    rw [if_neg (by simp [hwne]), if_neg hwne, if_neg hnne]
    unfold isAbsolutePosix posixNormalize
    apply (by simp : ∀ x : List Char, x.head? = some '/' → decide (x.head? = some '/') = true)
    apply normalizeChars_head_slash
    rw [String.data_append, String.data_append]
    unfold isAbsolutePosix at hw
    cases hd : w.data with
    | nil => exact absurd (String.ext hd) hwne
    | cons c cs =>
      rw [hd] at hw
      simp at hw
      simp [hd, hw]
  simp only [validateFilePath] at hv ⊢
  split_ifs at hv ⊢ with h1 h2 h3 h4 h5
  all_goals try (exfalso; simp at hv; done)
  · constructor
    · intro w hw
      subst hw
      exact ⟨rfl, fun hwabs => habs w hwabs⟩
    · intro hnone
      subst hnone
      rfl

/-- Witness for the amended C6 theorem: `"src/app.ts"` against the workspace
root `"/ws"` resolves to an absolute path. -/
theorem validateFilePath_relative_resolution_witness :
    (validateFilePath ⟨some "/ws"⟩ "src/app.ts").isValid = true ∧
    isAbsolutePosix (posixNormalize "src/app.ts") = false ∧
    ((validateFilePath ⟨some "/ws"⟩ "src/app.ts").sanitizedPath =
       posixJoin "/ws" (posixNormalize "src/app.ts") ∧
     (isAbsolutePosix "/ws" = true →
       isAbsolutePosix (validateFilePath ⟨some "/ws"⟩ "src/app.ts").sanitizedPath = true)) :=
  ⟨by decide, by decide,
   (validateFilePath_relative_resolution (some "/ws") "src/app.ts" (by decide) (by decide)).1
     "/ws" rfl⟩

/-! ## Claim C7 -/

/-- C7: `validateLineNumber` rejects every number that is not an integer, is
at most 0, or exceeds 1,000,000, and accepts every integer between 1 and
1,000,000. -/
theorem validateLineNumber_range_semantics (n : ℚ) :
    ((jsIsInteger n = false ∨ n ≤ 0 ∨ 1000000 < n) →
      (validateLineNumber n).isValid = false) ∧
    ((jsIsInteger n = true ∧ 1 ≤ n ∧ n ≤ 1000000) →
      (validateLineNumber n).isValid = true) := by
  constructor
  · intro h
    unfold validateLineNumber
    split_ifs with h1 h2
    · rfl
    · rfl
    · exfalso
      rcases h with h | h | h
      · exact h1 (by simp [h])
      · exact h1 (by simp; right; linarith)
      · exact h2 h
  · rintro ⟨hi, hlo, hhi⟩
    unfold validateLineNumber
    rw [if_neg (show ¬((!jsIsInteger n || decide (n < 1)) = true) by simp [hi]; linarith),
        if_neg (not_lt.2 hhi)]

/-- Witness for C7: rejection at 0 and at 1,000,001, acceptance at 10. -/
theorem validateLineNumber_range_semantics_witness :
    (validateLineNumber 0).isValid = false ∧
    (validateLineNumber 1000001).isValid = false ∧
    (validateLineNumber 10).isValid = true :=
  ⟨(validateLineNumber_range_semantics 0).1 (Or.inr (Or.inl (by norm_num))),
   (validateLineNumber_range_semantics 1000001).1 (Or.inr (Or.inr (by norm_num))),
   (validateLineNumber_range_semantics 10).2 ⟨by decide, by norm_num, by norm_num⟩⟩

/-! ## Claim C8 -/

/-- C8: the sanitization of breakpoint conditions and log messages is
idempotent — re-validating a sanitized value always succeeds and returns it
unchanged (stated unconditionally: an invalid over-long input sanitizes to
the empty string, which is a fixed point as well). -/
theorem sanitization_idempotent (s : String) :
    validateBreakpointCondition ((validateBreakpointCondition s).sanitizedCondition) =
      { isValid := true
        sanitizedCondition := (validateBreakpointCondition s).sanitizedCondition
        errMsg := none } ∧
    validateLogMessage ((validateLogMessage s).sanitizedMessage) =
      { isValid := true
        sanitizedMessage := (validateLogMessage s).sanitizedMessage
        errMsg := none } := by
  constructor
  · by_cases h1 : s = ""
    · simp [validateBreakpointCondition, h1]
    · by_cases h2 : 1000 < jsLength s
      · simp [validateBreakpointCondition, h1, h2]
      · have hres : validateBreakpointCondition s =
            { isValid := true, sanitizedCondition := sanitizeText s, errMsg := none } := by
          simp [validateBreakpointCondition, h1, h2]
        rw [hres]
        by_cases h3 : sanitizeText s = ""
        · simp [validateBreakpointCondition, h3]
        · have hlen : ¬ 1000 < jsLength (sanitizeText s) := by
            have := jsLength_sanitizeText_le s
            omega
          simp [validateBreakpointCondition, h3, hlen, sanitizeText_idem]
  · by_cases h1 : s = ""
    · simp [validateLogMessage, h1]
    · by_cases h2 : 500 < jsLength s
      · simp [validateLogMessage, h1, h2]
      · have hres : validateLogMessage s =
            { isValid := true, sanitizedMessage := sanitizeText s, errMsg := none } := by
          simp [validateLogMessage, h1, h2]
        rw [hres]
        by_cases h3 : sanitizeText s = ""
        · simp [validateLogMessage, h3]
        · have hlen : ¬ 500 < jsLength (sanitizeText s) := by
            have := jsLength_sanitizeText_le s
            omega
          simp [validateLogMessage, h3, hlen, sanitizeText_idem]

/-! ## Claim C2 -/

/-- The conjunction of the six validation checks `setBreakpoint` performs
before touching the backend, in source order (src/debugSessionManager.ts:
file path, line, column, condition, log message, file exists in workspace). -/
def setBreakpointValidationOk (env : DebugEnv) (file : String) (line : ℚ)
    (column : Option ℚ) (condition logMessage : Option String) : Bool :=
  (validateFilePath ⟨env.workspaceRoot⟩ file).isValid &&
  (validateLineNumber line).isValid &&
  !columnCheckFails column &&
  !conditionCheckFails condition &&
  !logMessageCheckFails logMessage &&
  env.fileExistsInWorkspace (validateFilePath ⟨env.workspaceRoot⟩ file).sanitizedPath

/-- C2: whenever any validation step of `setBreakpoint` fails, the call
terminates without installing any breakpoint (the breakpoint collection is
returned unchanged) and the error delivered to the caller is exactly the
generic safe message naming only the operation. -/
theorem setBreakpoint_validation_failure_safe (env : DebugEnv)
    (bps : List SrcBreakpoint) (file : String) (line : ℚ) (column : Option ℚ)
    (condition hitCondition logMessage : Option String)
    (h : setBreakpointValidationOk env file line column condition logMessage = false) :
    setBreakpoint env bps file line column condition hitCondition logMessage =
      { result := .error (createSafeError "setBreakpoint"), breakpoints := bps } := by
  unfold setBreakpointValidationOk at h
  simp only [setBreakpoint]
  split_ifs with h1 h2 h3 h4 h5 h6
  all_goals try rfl
  · exfalso
    rw [Bool.not_eq_false] at h1 h2
    rw [Bool.not_eq_true] at h3 h4 h5
    rw [Bool.not_eq_false] at h6
    simp [h1, h2, h3, h4, h5, h6] at h

/-- Witness for C2: an invalid line number (0) leaves the breakpoint set
untouched and yields the safe message. -/
theorem setBreakpoint_validation_failure_safe_witness :
    setBreakpointValidationOk ⟨some "/ws", fun _ => true⟩ "app.py" 0 none none none = false ∧
    setBreakpoint ⟨some "/ws", fun _ => true⟩ [] "app.py" 0 none none none none =
      { result := .error (createSafeError "setBreakpoint"), breakpoints := [] } :=
  ⟨by decide,
   setBreakpoint_validation_failure_safe ⟨some "/ws", fun _ => true⟩ [] "app.py" 0
     none none none none (by decide)⟩

/-! ## Claim C3 -/

/-- C3: with consent required, the configuration not yet approved, and the
prompt answered "Deny" (or dismissed), `startDebugging` returns `false`, the
backend start is never requested, and the persisted approved set is
unchanged. -/
theorem startDebugging_consent_denied (env : StartDebugEnv)
    (approvedConfigs : List String) (name : String) (workspaceFolder : Option String)
    (hn : (validateConfigurationName name).isValid = true)
    (hreq : env.consent.requireDebugConsent = true)
    (hnotapp : name ∉ approvedConfigs)
    (hans : env.consent.promptAnswer = .deny ∨ env.consent.promptAnswer = .dismissed) :
    startDebugging env approvedConfigs name workspaceFolder =
      { result := .ok false, approvedConfigs := approvedConfigs
        backendStartRequested := false } := by
  have hcu : canUseConfiguration env.consent approvedConfigs name =
      { allowed := false, approvedConfigs := approvedConfigs } := by
    unfold canUseConfiguration requestConsent isConfigurationApproved
    rw [if_neg (by simp [hreq]), if_neg (by simp [hnotapp])]
    rcases hans with h | h <;> rw [h]
  unfold startDebugging startDebuggingTry
  rw [if_neg (by simp [hn]), hcu]
  simp

/-- Witness for C3: denying consent for the valid configuration name
`"Launch App"` with an empty approved set. -/
theorem startDebugging_consent_denied_witness :
    (validateConfigurationName "Launch App").isValid = true ∧
    startDebugging ⟨["/ws"], ⟨true, .deny⟩, true⟩ [] "Launch App" none =
      { result := .ok false, approvedConfigs := [], backendStartRequested := false } :=
  ⟨by decide,
   startDebugging_consent_denied ⟨["/ws"], ⟨true, .deny⟩, true⟩ [] "Launch App" none
     (by decide) rfl (by simp) (Or.inl rfl)⟩

/-! ## Claim C9 -/

/-- C9: `getVariables` soft-fails — with no active session it returns the
empty list, and with a session whose thread-1 stack trace has no frames (and
no explicit frame id) it also returns the empty list; in the model its
return type carries no error channel at all. -/
theorem getVariables_soft_fail (activeSession : Option SessionBackend) (frameId : Option ℚ) :
    (activeSession = none → getVariables activeSession frameId = []) ∧
    (∀ s, activeSession = some s → s.stackTraceResp = .ok [] →
      getVariables activeSession none = []) := by
  constructor
  · intro h
    rw [h]
    rfl
  · intro s hs hst
    rw [hs]
    unfold getVariables
    simp [hst]

/-- Witness for C9: no session, and a session with an empty stack. -/
theorem getVariables_soft_fail_witness :
    getVariables none none = [] ∧
    getVariables (some ⟨.ok [], fun _ => .ok []⟩) none = [] :=
  ⟨(getVariables_soft_fail none none).1 rfl,
   (getVariables_soft_fail (some ⟨.ok [], fun _ => .ok []⟩) none).2 _ rfl rfl⟩

/-! ## Claim C4 -/

/-- The final branch of `removeBreakpoint`: removing the matching
breakpoints and reporting `length > 0` is the same as reporting `any` and
keeping the non-matching ones. -/
theorem remove_filter_outcome (bps : List SrcBreakpoint) (M : SrcBreakpoint → Bool) :
    (if 0 < (bps.filter M).length then
       ({ result := .ok true, breakpoints := bps.filter (fun bp => !M bp) } :
         RemoveBreakpointOutcome)
     else { result := .ok false, breakpoints := bps }) =
    { result := .ok (bps.any M), breakpoints := bps.filter (fun bp => !M bp) } := by
  by_cases h : 0 < (bps.filter M).length
  · rw [if_pos h]
    have hany : bps.any M = true := by
      cases hfe : bps.filter M with
      | nil =>
        rw [hfe] at h
        simp at h
      | cons a t =>
        have ha : a ∈ bps.filter M := by
          rw [hfe]
          exact List.mem_cons_self a t
        have := List.mem_filter.1 ha
        rw [List.any_eq_true]
        exact ⟨a, this.1, this.2⟩
    rw [hany]
  · rw [if_neg h]
    push_neg at h
    have hempty : bps.filter M = [] := List.eq_nil_of_length_eq_zero (Nat.le_zero.1 h)
    have hall : ∀ a ∈ bps, M a = false := by
      intro a ha
      by_contra hc
      have hmem : a ∈ bps.filter M :=
        List.mem_filter.2 ⟨ha, by revert hc; cases M a <;> simp⟩
      rw [hempty] at hmem
      simp at hmem
    have hany : bps.any M = false := by
      rw [← Bool.not_eq_true, List.any_eq_true]
      rintro ⟨x, hx, hMx⟩
      rw [hall x hx] at hMx
      cases hMx
    have hfix : bps.filter (fun bp => !M bp) = bps :=
      List.filter_eq_self.2 fun a ha => by rw [hall a ha]; rfl
    rw [hany, hfix]

/-- C4: for a valid (file, line) pair, `removeBreakpoint` with no column
removes exactly the breakpoints matching the sanitized file and the line
(regardless of column); with a valid column it removes only exact column
matches; it reports `true` exactly when at least one breakpoint matched, and
on the empty collection it reports `false`. -/
theorem removeBreakpoint_matching_semantics (env : DebugEnv)
    (bps : List SrcBreakpoint) (file : String) (line : ℚ)
    (hf : (validateFilePath ⟨env.workspaceRoot⟩ file).isValid = true)
    (hl : (validateLineNumber line).isValid = true) :
    (removeBreakpoint env bps file line none =
      { result := .ok (bps.any (fun bp =>
           bp.file = (validateFilePath ⟨env.workspaceRoot⟩ file).sanitizedPath &&
           bp.line0 + 1 = line))
        breakpoints := bps.filter (fun bp =>
           !(bp.file = (validateFilePath ⟨env.workspaceRoot⟩ file).sanitizedPath &&
             bp.line0 + 1 = line)) }) ∧
    (∀ c : ℚ, (validateColumnNumber c).isValid = true →
      removeBreakpoint env bps file line (some c) =
        { result := .ok (bps.any (fun bp =>
             bp.file = (validateFilePath ⟨env.workspaceRoot⟩ file).sanitizedPath &&
             bp.line0 + 1 = line && bp.char0 + 1 = c))
          breakpoints := bps.filter (fun bp =>
             !(bp.file = (validateFilePath ⟨env.workspaceRoot⟩ file).sanitizedPath &&
               bp.line0 + 1 = line && bp.char0 + 1 = c)) }) ∧
    (bps = [] → (removeBreakpoint env [] file line none).result = .ok false) := by
  refine ⟨?_, ?_, ?_⟩
  · have hpred : bpRemovalMatch (validateFilePath ⟨env.workspaceRoot⟩ file).sanitizedPath
        line none = (fun bp =>
          bp.file = (validateFilePath ⟨env.workspaceRoot⟩ file).sanitizedPath &&
          bp.line0 + 1 = line) := by
      funext bp
      simp [bpRemovalMatch]
    simp only [removeBreakpoint]
    rw [if_neg (by simp [hf]), if_neg (by simp [hl]),
      if_neg (by simp [columnCheckFails])]
    rw [remove_filter_outcome bps _]
    simp only [hpred]
  · intro c hc
    have hc1 : 1 ≤ c := one_le_of_validColumnNumber c hc
    have hc0 : ¬ c = 0 := by
      intro e
      rw [e] at hc1
      norm_num at hc1
    have hpred : bpRemovalMatch (validateFilePath ⟨env.workspaceRoot⟩ file).sanitizedPath
        line (some c) = (fun bp =>
          bp.file = (validateFilePath ⟨env.workspaceRoot⟩ file).sanitizedPath &&
          bp.line0 + 1 = line && bp.char0 + 1 = c) := by
      funext bp
      simp [bpRemovalMatch, hc0]
    simp only [removeBreakpoint]
    rw [if_neg (by simp [hf]), if_neg (by simp [hl]),
      if_neg (by simp [columnCheckFails, hc])]
    rw [remove_filter_outcome bps _]
    simp only [hpred]
  · intro hbps
    simp only [removeBreakpoint]
    rw [if_neg (by simp [hf]), if_neg (by simp [hl]),
      if_neg (by simp [columnCheckFails])]
    simp

/-- Witness for C4: removing from the empty breakpoint collection at the
valid location `("/ws/a.py", 10)` returns `false`. -/
theorem removeBreakpoint_matching_semantics_witness :
    (validateFilePath ⟨some "/ws"⟩ "/ws/a.py").isValid = true ∧
    (validateLineNumber 10).isValid = true ∧
    (removeBreakpoint ⟨some "/ws", fun _ => true⟩ [] "/ws/a.py" 10 none).result =
      .ok false :=
  ⟨by decide, by decide,
   (removeBreakpoint_matching_semantics ⟨some "/ws", fun _ => true⟩ [] "/ws/a.py" 10
     (by decide) (by decide)).2.2 rfl⟩

/-- Decidable equality for `Except` results (componentwise). -/
instance {E A : Type} [DecidableEq E] [DecidableEq A] : DecidableEq (Except E A) := fun a b =>
  match a, b with
  | .error e1, .error e2 =>
    if h : e1 = e2 then .isTrue (by rw [h]) else .isFalse (fun he => h (Except.error.inj he))
  | .ok a1, .ok a2 =>
    if h : a1 = a2 then .isTrue (by rw [h]) else .isFalse (fun he => h (Except.ok.inj he))
  | .error _, .ok _ => .isFalse (fun he => Except.noConfusion he)
  | .ok _, .error _ => .isFalse (fun he => Except.noConfusion he)

/-- Decidable equality for `setBreakpoint` outcomes. -/
instance : DecidableEq SetBreakpointOutcome := fun a b =>
  match a, b with
  | ⟨r1, b1⟩, ⟨r2, b2⟩ =>
    if h : r1 = r2 ∧ b1 = b2 then .isTrue (by rw [h.1, h.2])
    else .isFalse (fun he => by
      rw [SetBreakpointOutcome.mk.injEq] at he
      exact h he)

/-! ## Claim C5 -/

/-- C5: the id of a successfully set breakpoint is the pure derivation
`sanitizedFile:(line-1):(column-1 or 0)` from the normalized 0-based
location, and listing the breakpoints immediately afterwards contains an
entry whose independently re-derived id equals the returned one. -/
theorem setBreakpoint_id_pure_derivation (env : DebugEnv)
    (bps : List SrcBreakpoint) (file : String) (line : ℚ) (column : Option ℚ)
    (condition hitCondition logMessage : Option String)
    (info : BreakpointInfo) (bpsAfter : List SrcBreakpoint)
    (h : setBreakpoint env bps file line column condition hitCondition logMessage =
      { result := .ok info, breakpoints := bpsAfter }) :
    info.id = (validateFilePath ⟨env.workspaceRoot⟩ file).sanitizedPath ++ ":" ++
      jsNumberToString (line - 1) ++ ":" ++
      jsNumberToString (match column with | none => 0 | some c => c - 1) ∧
    (getAllBreakpoints bpsAfter).any (fun entry => entry.id = info.id) = true := by
  simp only [setBreakpoint] at h
  split_ifs at h with h1 h2 h3 h4 h5 h6
  all_goals try simp at h
  obtain ⟨hinfo, hbps⟩ := h
  subst hinfo
  subst hbps
  have hline : max 0 (line - 1) = line - 1 := by
    have := one_le_of_validLineNumber line (by
      revert h2
      cases (validateLineNumber line).isValid <;> simp)
    exact max_eq_right (by linarith)
  constructor
  · simp only [generateBreakpointId, hline]
    cases column with
    | none => rfl
    | some c =>
      have hcv : (validateColumnNumber c).isValid = true := by
        revert h3
        simp [columnCheckFails]
      have hc1 : 1 ≤ c := one_le_of_validColumnNumber c hcv
      have hc0 : ¬ c = 0 := by
        intro e
        rw [e] at hc1
        norm_num at hc1
      simp only [backendChar, if_neg hc0]
      rw [max_eq_right (by linarith)]
  · simp [getAllBreakpoints, List.any_append]

/-- Witness for C5: setting a breakpoint at `("/ws/a.py", 10)` in an empty
collection yields the id `"/ws/a.py:9:0"`, which the listing re-derives. -/
theorem setBreakpoint_id_pure_derivation_witness :
    setBreakpoint ⟨some "/ws", fun _ => true⟩ [] "/ws/a.py" 10 none none none none =
      { result := .ok
          { id := "/ws/a.py:9:0", file := "/ws/a.py", line := 10, column := none
            enabled := true, condition := none, hitCondition := none, logMessage := none }
        breakpoints :=
          [{ file := "/ws/a.py", line0 := 9, char0 := 0, enabled := true
             condition := none, hitCondition := none, logMessage := none }] } ∧
    (({ id := "/ws/a.py:9:0", file := "/ws/a.py", line := 10, column := none
        enabled := true, condition := none, hitCondition := none,
        logMessage := none } : BreakpointInfo).id =
      (validateFilePath ⟨some "/ws"⟩ "/ws/a.py").sanitizedPath ++ ":" ++
        jsNumberToString ((10 : ℚ) - 1) ++ ":" ++
        jsNumberToString (match (none : Option ℚ) with | none => 0 | some c => c - 1) ∧
      (getAllBreakpoints
        [{ file := "/ws/a.py", line0 := 9, char0 := 0, enabled := true
           condition := none, hitCondition := none, logMessage := none }]).any
        (fun entry => entry.id = "/ws/a.py:9:0") = true) := by
  have hset : setBreakpoint ⟨some "/ws", fun _ => true⟩ [] "/ws/a.py" 10 none none none none =
      { result := .ok
          { id := "/ws/a.py:9:0", file := "/ws/a.py", line := 10, column := none
            enabled := true, condition := none, hitCondition := none, logMessage := none }
        breakpoints :=
          [{ file := "/ws/a.py", line0 := 9, char0 := 0, enabled := true
             condition := none, hitCondition := none, logMessage := none }] } := by
    simp only [setBreakpoint]
    rw [if_neg (by decide), if_neg (by decide), if_neg (by decide), if_neg (by decide),
      if_neg (by decide), if_neg (by decide)]
    rw [show (10 : ℚ) - 1 = 9 by norm_num, max_eq_right (by norm_num : (0 : ℚ) ≤ 9)]
    decide
  exact ⟨hset,
    setBreakpoint_id_pure_derivation ⟨some "/ws", fun _ => true⟩ [] "/ws/a.py" 10
      none none none none _ _ hset⟩

/-! ## Claim C10 -/

/-- The entry that `getAllBreakpoints` lists for a breakpoint appended to the
collection. -/
theorem mem_getAllBreakpoints_append_last (bps : List SrcBreakpoint) (bp : SrcBreakpoint) :
    ∃ e ∈ getAllBreakpoints (bps ++ [bp]), e.id = generateBreakpointId bp ∧
      e.column = some (bp.char0 + 1) := by
  refine ⟨{ id := generateBreakpointId bp, file := bp.file, line := bp.line0 + 1
            column := some (bp.char0 + 1), enabled := bp.enabled, condition := bp.condition
            hitCondition := bp.hitCondition, logMessage := bp.logMessage }, ?_, rfl, rfl⟩
  rw [getAllBreakpoints, List.mem_map]
  exact ⟨bp, by simp, rfl⟩

/-- C10: every entry listed by `getAllBreakpoints` carries a defined column
(the backend's 0-based character plus 1) and an id embedding the 0-based
coordinates, `file ++ ":" ++ (line - 1) ++ ":" ++ (column - 1)`, even though
the listed `line`/`column` fields are 1-based; in particular a breakpoint
set without a column is listed with column 1. -/
theorem getAllBreakpoints_column_and_id :
    (∀ (bps : List SrcBreakpoint), ∀ e ∈ getAllBreakpoints bps,
      e.column.isSome = true ∧
      e.id = e.file ++ ":" ++ jsNumberToString (e.line - 1) ++ ":" ++
        jsNumberToString (e.column.getD 0 - 1)) ∧
    (∀ (env : DebugEnv) (bps : List SrcBreakpoint) (file : String) (line : ℚ)
        (condition hitCondition logMessage : Option String)
        (info : BreakpointInfo) (bpsAfter : List SrcBreakpoint),
      setBreakpoint env bps file line none condition hitCondition logMessage =
        { result := .ok info, breakpoints := bpsAfter } →
      ∃ e ∈ getAllBreakpoints bpsAfter, e.id = info.id ∧ e.column = some 1) := by
  constructor
  · intro bps e he
    rw [getAllBreakpoints, List.mem_map] at he
    obtain ⟨bp, _, hbp⟩ := he
    subst hbp
    refine ⟨rfl, ?_⟩
    simp only [generateBreakpointId, Option.getD_some, add_sub_cancel_right]
  · intro env bps file line condition hitCondition logMessage info bpsAfter h
    simp only [setBreakpoint] at h
    split_ifs at h with h1 h2 h3 h4 h5 h6
    all_goals try simp at h
    obtain ⟨hinfo, hbps⟩ := h
    subst hinfo
    subst hbps
    obtain ⟨e, hmem, hid, hcol⟩ := mem_getAllBreakpoints_append_last bps _
    refine ⟨e, hmem, hid, ?_⟩
    rw [hcol]
    norm_num [backendChar]

/-- The stored breakpoint used by the C10 witness. -/
def sampleSrcBreakpoint : SrcBreakpoint :=
  { file := "/ws/a.py", line0 := 9, char0 := 0, enabled := true
    condition := none, hitCondition := none, logMessage := none }

/-- The listed entry used by the C10 witness. -/
def sampleEntry : BreakpointInfo :=
  { id := "/ws/a.py:9:0", file := "/ws/a.py", line := 9 + 1, column := some (0 + 1)
    enabled := true, condition := none, hitCondition := none, logMessage := none }

/-- Witness for C10 at a concrete one-element collection. -/
theorem getAllBreakpoints_column_and_id_witness :
    sampleEntry ∈ getAllBreakpoints [sampleSrcBreakpoint] ∧
    (sampleEntry.column.isSome = true ∧
     sampleEntry.id = sampleEntry.file ++ ":" ++ jsNumberToString (sampleEntry.line - 1) ++
       ":" ++ jsNumberToString (sampleEntry.column.getD 0 - 1)) := by
  have hlist : getAllBreakpoints [sampleSrcBreakpoint] = [sampleEntry] := by
    unfold getAllBreakpoints sampleSrcBreakpoint sampleEntry
    simp only [List.map_cons, List.map_nil, List.cons.injEq, and_true,
      BreakpointInfo.mk.injEq]
    decide
  have hmem : sampleEntry ∈ getAllBreakpoints [sampleSrcBreakpoint] := by
    rw [hlist]
    exact List.mem_singleton.2 rfl
  exact ⟨hmem, getAllBreakpoints_column_and_id.1 [sampleSrcBreakpoint] sampleEntry hmem⟩
